import Mathlib

/-!
Verification of the organism-encounter simulation header (`organism.h`).

The C++ code is a header-only template library: an `Organism` value carries a
species value (generic, equality-comparable), two compile-time diet flags
(`can_eat_meat`, `can_eat_plants`) and a `uint64_t` vitality.  `encounter`
resolves a pairwise meeting by an ordered list of rules and `encounter_series`
folds one organism through a sequence of encounters.

Embedding choices:
* The compile-time diet flags become `Bool` fields; every C++ operation
  preserves them, as the template instantiation does.
* `vitality_t = uint64_t`, so vitality arithmetic is `Nat` arithmetic reduced
  modulo `2 ^ 64` wherever the C++ code adds (`add_vitality`, the mating
  average).  Division and comparisons on `uint64_t` values agree with the
  `Nat` operations directly.
* The `throw logic_error("Illegal state")` branch makes `encounter` fallible:
  the embedding returns `Option`, with `none` for the throw.
* The variadic `encounter_series` becomes a function on `List`.
-/

/-- Modulus of `uint64_t` arithmetic (`vitality_t` in the C++ source). -/
def VMOD : Nat := 2 ^ 64

/-- Embedding of the C++ class template
`Organism<species_t, can_eat_meat, can_eat_plants>`: the two template `bool`
parameters become fields, which no operation of the class ever changes. -/
structure Organism (species_t : Type) where
  can_eat_meat : Bool
  can_eat_plants : Bool
  species : species_t
  vitality : Nat
deriving DecidableEq

namespace Organism

variable {species_t : Type} [DecidableEq species_t]

/-- Embeds the C++ method `get_vitality`. -/
def get_vitality (o : Organism species_t) : Nat :=
  o.vitality

/-- Embeds the C++ method `is_dead`: `vitality == 0`. -/
def is_dead (o : Organism species_t) : Bool :=
  o.vitality == 0

/-- Embeds the C++ method `get_species`. -/
def get_species (o : Organism species_t) : species_t :=
  o.species

/-- Embeds the C++ method `is_plant`: `!can_eat_meat && !can_eat_plants`. -/
def is_plant (o : Organism species_t) : Bool :=
  !o.can_eat_meat && !o.can_eat_plants

/-- Embeds the C++ method `can_eat`: meat-eaters can eat every non-plant,
plant-eaters can eat every plant. -/
def can_eat (o that : Organism species_t) : Bool :=
  if o.can_eat_meat && !that.is_plant then true
  else if o.can_eat_plants && that.is_plant then true
  else false

/-- Embeds the C++ method `are_species_equal`: species values compare equal
and both diet flags coincide. -/
def are_species_equal (o other : Organism species_t) : Bool :=
  decide (o.species = other.get_species) &&
    (o.can_eat_meat == other.can_eat_meat) &&
    (o.can_eat_plants == other.can_eat_plants)

/-- Embeds the C++ method `set_vitality`: same species and diet flags, new
vitality. -/
def set_vitality (o : Organism species_t) (new_vitality : Nat) : Organism species_t :=
  { o with vitality := new_vitality }

/-- Embeds the C++ method `add_vitality`: `set_vitality(get_vitality() + change)`
on `uint64_t`, so the sum wraps modulo `2 ^ 64`. -/
def add_vitality (o : Organism species_t) (change : Nat) : Organism species_t :=
  o.set_vitality ((o.get_vitality + change) % VMOD)

/-- Embeds the C++ method `kill`: `set_vitality(0)`. -/
def kill (o : Organism species_t) : Organism species_t :=
  o.set_vitality 0

end Organism

/-- Embeds the C++ function template `encounter`.  The rules are evaluated in
the source order; the final `throw logic_error("Illegal state")` is modelled
as `none`.  The `static_assert` forbidding two plants is a compile-time
precondition and therefore appears as a hypothesis of the theorems, not in
the body.  The mating offspring takes `organism1`'s species and diet flags,
and its vitality is the `uint64_t` average, i.e. the wrapped sum halved. -/
def encounter {species_t : Type} [DecidableEq species_t]
    (organism1 organism2 : Organism species_t) :
    Option (Organism species_t × Organism species_t × Option (Organism species_t)) :=
  let nothing_happens := some (organism1, organism2, none)
  if organism1.is_dead || organism2.is_dead then
    nothing_happens
  else if organism1.are_species_equal organism2 then
    some (organism1, organism2,
      some ⟨organism1.can_eat_meat, organism1.can_eat_plants, organism1.get_species,
        ((organism1.get_vitality + organism2.get_vitality) % VMOD) / 2⟩)
  else if !organism1.can_eat organism2 && !organism2.can_eat organism1 then
    nothing_happens
  else if (!organism1.is_plant && !organism2.is_plant) &&
      (organism1.can_eat organism2 && organism2.can_eat organism1) then
    let organism1_dies := organism2.get_vitality ≥ organism1.get_vitality
    let organism2_dies := organism1.get_vitality ≥ organism2.get_vitality
    some
      ((if organism1_dies then organism1.kill
        else organism1.add_vitality (organism2.get_vitality / 2)),
       (if organism2_dies then organism2.kill
        else organism2.add_vitality (organism1.get_vitality / 2)),
       none)
  else if organism2.is_plant && organism1.can_eat organism2 then
    some (organism1.add_vitality organism2.get_vitality, organism2.kill, none)
  else if organism1.is_plant && organism2.can_eat organism1 then
    some (organism1.kill, organism2.add_vitality organism1.get_vitality, none)
  else if organism1.can_eat organism2 then
    if organism2.get_vitality ≥ organism1.get_vitality then nothing_happens
    else some (organism1.add_vitality (organism2.get_vitality / 2), organism2.kill, none)
  else if organism2.can_eat organism1 then
    if organism1.get_vitality ≥ organism2.get_vitality then nothing_happens
    else some (organism1.kill, organism2.add_vitality (organism1.get_vitality / 2), none)
  else
    none

/-- Embeds the C++ variadic function template `encounter_series`: with no
trailing organisms the first argument is returned; otherwise the recursion
continues with `get<0>(encounter(organism1, organism2))`.  A propagated
exception from `encounter` is modelled by propagating `none`. -/
def encounter_series {species_t : Type} [DecidableEq species_t]
    (organism1 : Organism species_t) :
    List (Organism species_t) → Option (Organism species_t)
  | [] => some organism1
  | organism2 :: args =>
    match encounter organism1 organism2 with
    | none => none
    | some r => encounter_series r.1 args

/-- Modelled from the spec: the encounter-series fold described in the spec,
"folding `x` through sequential pairwise `encounter` calls against a, b, c in
order, taking only the first element of each result as the next `first`",
written directly as a left fold.  Used to compare against the recursive
`encounter_series` of the source. -/
def encounter_series_fold {species_t : Type} [DecidableEq species_t]
    (first : Organism species_t) (rest : List (Organism species_t)) :
    Option (Organism species_t) :=
  rest.foldl
    (fun acc other => acc.bind (fun x => (encounter x other).map (fun r => r.1)))
    (some first)

/-- Helper: the dead-party rule is the first rule of `encounter`, so a dead
party on either side short-circuits the whole resolver. -/
theorem encounter_of_dead {species_t : Type} [DecidableEq species_t]
    {o1 o2 : Organism species_t} (h : (o1.is_dead || o2.is_dead) = true) :
    encounter o1 o2 = some (o1, o2, none) := by
  simp [encounter, h]

/-- Helper: `are_species_equal` is symmetric. -/
theorem are_species_equal_comm {species_t : Type} [DecidableEq species_t]
    (a b : Organism species_t) :
    a.are_species_equal b = b.are_species_equal a := by
  rcases a with ⟨am, ap, as, av⟩
  rcases b with ⟨bm, bp, bs, bv⟩
  by_cases hs : as = bs <;>
    cases am <;> cases ap <;> cases bm <;> cases bp <;>
      simp_all [Organism.are_species_equal, Organism.get_species, eq_comm]

/-- C9: if either party of `encounter` is dead, both parties are returned
unchanged and there is no offspring, for every combination of diet flags. -/
theorem encounter_dead_party {species_t : Type} [DecidableEq species_t]
    (o1 o2 : Organism species_t)
    (h : o1.is_dead = true ∨ o2.is_dead = true) :
    encounter o1 o2 = some (o1, o2, none) :=
  encounter_of_dead (by rcases h with h | h <;> simp [h])

theorem encounter_dead_party_witness :
    ((⟨true, false, (0 : Nat), 0⟩ : Organism Nat).is_dead = true ∨
      (⟨false, true, (1 : Nat), 7⟩ : Organism Nat).is_dead = true) ∧
    encounter (⟨true, false, (0 : Nat), 0⟩ : Organism Nat) ⟨false, true, 1, 7⟩ =
      some (⟨true, false, 0, 0⟩, ⟨false, true, 1, 7⟩, none) :=
  ⟨Or.inl (by decide), encounter_dead_party _ _ (Or.inl (by decide))⟩

/-- C10: a dead first argument passes through `encounter_series` unchanged,
whatever the other organisms are, because the dead-party rule fires at every
step of the fold. -/
theorem encounter_series_dead_invariant {species_t : Type} [DecidableEq species_t]
    (x : Organism species_t) (others : List (Organism species_t))
    (h : x.is_dead = true) :
    encounter_series x others = some x := by
  induction others with
  | nil => rfl
  | cons y ys ih =>
    have hce : encounter x y = some (x, y, none) := encounter_of_dead (by simp [h])
    simp only [encounter_series, hce]
    exact ih

theorem encounter_series_dead_invariant_witness :
    (⟨true, true, (0 : Nat), 0⟩ : Organism Nat).is_dead = true ∧
    encounter_series (⟨true, true, (0 : Nat), 0⟩ : Organism Nat)
      [⟨false, true, 1, 4⟩, ⟨false, false, 2, 9⟩, ⟨true, false, 0, 3⟩] =
      some ⟨true, true, 0, 0⟩ :=
  ⟨by decide, encounter_series_dead_invariant _ _ (by decide)⟩

/-- Helper: the spec-side fold stays `none` once the accumulator is `none`. -/
theorem encounter_series_fold_none {species_t : Type} [DecidableEq species_t]
    (rest : List (Organism species_t)) :
    rest.foldl
      (fun acc other => acc.bind (fun x => (encounter x other).map (fun r => r.1)))
      none = none := by
  induction rest with
  | nil => rfl
  | cons y ys ih => simpa using ih

/-- C8: the recursive `encounter_series` agrees with the spec-described left
fold that threads only the first component of each `encounter` result; with an
empty tail the first organism is returned unchanged (the `[]` case of both
sides). -/
theorem encounter_series_eq_fold {species_t : Type} [DecidableEq species_t]
    (x : Organism species_t) (rest : List (Organism species_t)) :
    encounter_series x rest = encounter_series_fold x rest := by
  induction rest generalizing x with
  | nil => rfl
  | cons y ys ih =>
    cases hce : encounter x y with
    | none =>
      simp only [encounter_series, hce, encounter_series_fold, List.foldl_cons,
        Option.some_bind, Option.map_none]
      exact (encounter_series_fold_none ys).symm
    | some r =>
      simp only [encounter_series, hce, encounter_series_fold, List.foldl_cons,
        Option.some_bind, Option.map_some]
      exact ih r.1

/-- C2: under the not-both-plants precondition (the `static_assert` of the
source) the resolver never reaches the `throw logic_error("Illegal state")`
branch: one of the rules always fires first. -/
theorem encounter_never_illegal_state {species_t : Type} [DecidableEq species_t]
    (o1 o2 : Organism species_t)
    (h : ¬(o1.is_plant = true ∧ o2.is_plant = true)) :
    (encounter o1 o2).isSome = true := by
  simp only [encounter]
  split_ifs <;> simp_all

theorem encounter_never_illegal_state_witness :
    ¬((⟨true, false, (0 : Nat), 5⟩ : Organism Nat).is_plant = true ∧
      (⟨false, true, (1 : Nat), 3⟩ : Organism Nat).is_plant = true) ∧
    (encounter (⟨true, false, (0 : Nat), 5⟩ : Organism Nat)
      ⟨false, true, 1, 3⟩).isSome = true :=
  ⟨by decide, encounter_never_illegal_state _ _ (by decide)⟩

/-- C7 counterexample: `add_vitality` is `uint64_t` addition, which wraps: at
vitality `2 ^ 64 - 1`, adding `1` yields vitality `0`, which is not the exact
sum and is strictly smaller than the original vitality. -/
theorem add_vitality_wrap_counterexample :
    (⟨true, false, (0 : Nat), 18446744073709551615⟩ : Organism Nat).add_vitality 1 =
      ⟨true, false, 0, 0⟩ ∧
    ((⟨true, false, (0 : Nat), 18446744073709551615⟩ : Organism Nat).add_vitality
      1).get_vitality ≠ 18446744073709551615 + 1 ∧
    ((⟨true, false, (0 : Nat), 18446744073709551615⟩ : Organism Nat).add_vitality
      1).get_vitality <
      (⟨true, false, (0 : Nat), 18446744073709551615⟩ : Organism Nat).get_vitality := by
  decide

/-- C7 amended: `add_vitality` computes `(vitality + delta) mod 2 ^ 64`; as
long as the true sum fits in `uint64_t` the result is exactly
`vitality + delta`, and in particular never smaller than the original
vitality. -/
theorem add_vitality_exact {species_t : Type} [DecidableEq species_t]
    (e : Organism species_t) (delta : Nat)
    (h : e.get_vitality + delta < VMOD) :
    (e.add_vitality delta).get_vitality = e.get_vitality + delta ∧
    e.get_vitality ≤ (e.add_vitality delta).get_vitality := by
  have hmod : (e.vitality + delta) % VMOD = e.vitality + delta :=
    Nat.mod_eq_of_lt h
  refine ⟨?_, ?_⟩ <;>
    simp [Organism.add_vitality, Organism.set_vitality, Organism.get_vitality,
      hmod, Nat.le_add_right]

theorem add_vitality_exact_witness :
    (⟨true, false, (0 : Nat), 10⟩ : Organism Nat).get_vitality + 5 < VMOD ∧
    (((⟨true, false, (0 : Nat), 10⟩ : Organism Nat).add_vitality 5).get_vitality =
      (⟨true, false, (0 : Nat), 10⟩ : Organism Nat).get_vitality + 5 ∧
     (⟨true, false, (0 : Nat), 10⟩ : Organism Nat).get_vitality ≤
      ((⟨true, false, (0 : Nat), 10⟩ : Organism Nat).add_vitality 5).get_vitality) :=
  ⟨by decide, add_vitality_exact _ 5 (by decide)⟩

/-- C4 counterexample: the mating offspring's vitality is the `uint64_t`
average, so the parents' sum wraps modulo `2 ^ 64` before halving.  Two
living same-species omnivores of vitality `2 ^ 64 - 1` produce an offspring of
vitality `2 ^ 63 - 1`, not the true floored average `2 ^ 64 - 1`. -/
theorem encounter_mating_counterexample :
    (⟨true, true, (0 : Nat), 18446744073709551615⟩ : Organism Nat).is_dead = false ∧
    (⟨true, true, (0 : Nat), 18446744073709551615⟩ : Organism Nat).are_species_equal
      ⟨true, true, 0, 18446744073709551615⟩ = true ∧
    encounter (⟨true, true, (0 : Nat), 18446744073709551615⟩ : Organism Nat)
      ⟨true, true, 0, 18446744073709551615⟩ =
      some (⟨true, true, 0, 18446744073709551615⟩,
        ⟨true, true, 0, 18446744073709551615⟩,
        some ⟨true, true, 0, 9223372036854775807⟩) ∧
    (9223372036854775807 : Nat) ≠
      (18446744073709551615 + 18446744073709551615) / 2 := by
  decide

/-- C4 amended: two living organisms with equal species values and identical
diet flags mate: both parents are returned unchanged and the offspring takes
the first argument's species and diet, with vitality
`((a.vitality + b.vitality) mod 2 ^ 64) / 2` — the floored average of the
parents whenever their sum fits in `uint64_t`.  The rule fires before every
capability-based rule, so it applies even to mutually edible pairs. -/
theorem encounter_mating {species_t : Type} [DecidableEq species_t]
    (a b : Organism species_t)
    (hda : a.is_dead = false) (hdb : b.is_dead = false)
    (hs : a.are_species_equal b = true) :
    encounter a b =
      some (a, b, some ⟨a.can_eat_meat, a.can_eat_plants, a.species,
        ((a.get_vitality + b.get_vitality) % VMOD) / 2⟩) := by
  simp [encounter, hda, hdb, hs, Organism.get_species]

theorem encounter_mating_witness :
    (⟨true, true, (3 : Nat), 10⟩ : Organism Nat).is_dead = false ∧
    (⟨true, true, (3 : Nat), 20⟩ : Organism Nat).is_dead = false ∧
    (⟨true, true, (3 : Nat), 10⟩ : Organism Nat).are_species_equal
      ⟨true, true, 3, 20⟩ = true ∧
    encounter (⟨true, true, (3 : Nat), 10⟩ : Organism Nat) ⟨true, true, 3, 20⟩ =
      some (⟨true, true, 3, 10⟩, ⟨true, true, 3, 20⟩,
        some ⟨true, true, 3, ((10 + 20) % VMOD) / 2⟩) :=
  ⟨by decide, by decide, by decide,
    encounter_mating _ _ (by decide) (by decide) (by decide)⟩

/-- C6: a living organism that can eat a living plant eats it: the eater's
vitality grows by `add_vitality` of the plant's full vitality and the plant
is killed, with no offspring — in both argument orders (the source checks the
second-argument-is-plant case first, but at most one side can be a plant
here, so both orders resolve to this rule). -/
theorem encounter_plant_predation {species_t : Type} [DecidableEq species_t]
    (a b : Organism species_t)
    (hda : a.is_dead = false) (hdb : b.is_dead = false)
    (hp : b.is_plant = true) (hc : a.can_eat b = true) :
    encounter a b = some (a.add_vitality b.get_vitality, b.kill, none) ∧
    encounter b a = some (b.kill, a.add_vitality b.get_vitality, none) := by
  rcases a with ⟨am, ap, as, av⟩
  rcases b with ⟨bm, bp, bs, bv⟩
  cases am <;> cases ap <;> cases bm <;> cases bp <;>
    simp_all [encounter, Organism.is_dead, Organism.is_plant, Organism.can_eat,
      Organism.are_species_equal, Organism.get_species, Organism.get_vitality,
      Organism.add_vitality, Organism.set_vitality, Organism.kill]

theorem encounter_plant_predation_witness :
    (⟨false, true, (0 : Nat), 30⟩ : Organism Nat).is_dead = false ∧
    (⟨false, false, (1 : Nat), 50⟩ : Organism Nat).is_dead = false ∧
    (⟨false, false, (1 : Nat), 50⟩ : Organism Nat).is_plant = true ∧
    (⟨false, true, (0 : Nat), 30⟩ : Organism Nat).can_eat
      ⟨false, false, 1, 50⟩ = true ∧
    (encounter (⟨false, true, (0 : Nat), 30⟩ : Organism Nat) ⟨false, false, 1, 50⟩ =
      some ((⟨false, true, (0 : Nat), 30⟩ : Organism Nat).add_vitality
        (⟨false, false, (1 : Nat), 50⟩ : Organism Nat).get_vitality,
        (⟨false, false, (1 : Nat), 50⟩ : Organism Nat).kill, none) ∧
     encounter (⟨false, false, (1 : Nat), 50⟩ : Organism Nat) ⟨false, true, 0, 30⟩ =
      some ((⟨false, false, (1 : Nat), 50⟩ : Organism Nat).kill,
        (⟨false, true, (0 : Nat), 30⟩ : Organism Nat).add_vitality
          (⟨false, false, (1 : Nat), 50⟩ : Organism Nat).get_vitality, none)) :=
  ⟨by decide, by decide, by decide, by decide,
    encounter_plant_predation _ _ (by decide) (by decide) (by decide) (by decide)⟩

/-- C3 counterexample: two living, mutually edible, non-plant organisms of
the same species (two identical carnivores) mate instead of fighting: the
result keeps both alive and has an offspring, while the claim (with equal
vitalities on both sides) demands both killed and no offspring. -/
theorem encounter_mutual_predation_counterexample :
    (⟨true, false, (0 : Nat), 5⟩ : Organism Nat).is_dead = false ∧
    (⟨true, false, (0 : Nat), 5⟩ : Organism Nat).is_plant = false ∧
    (⟨true, false, (0 : Nat), 5⟩ : Organism Nat).can_eat
      ⟨true, false, 0, 5⟩ = true ∧
    encounter (⟨true, false, (0 : Nat), 5⟩ : Organism Nat) ⟨true, false, 0, 5⟩ =
      some (⟨true, false, 0, 5⟩, ⟨true, false, 0, 5⟩,
        some ⟨true, false, 0, 5⟩) ∧
    encounter (⟨true, false, (0 : Nat), 5⟩ : Organism Nat) ⟨true, false, 0, 5⟩ ≠
      some ((⟨true, false, (0 : Nat), 5⟩ : Organism Nat).kill,
        (⟨true, false, (0 : Nat), 5⟩ : Organism Nat).kill, none) := by
  decide

/-- C3 amended: two living, mutually edible, non-plant organisms of distinct
species fight: no offspring; if `b.vitality ≥ a.vitality` then `a` is killed,
else `a`'s vitality becomes `(a.vitality + b.vitality / 2) mod 2 ^ 64` (its
old vitality plus half the loser's, wrapped by `uint64_t`); symmetrically for
`b`.  Equal vitalities satisfy both kill conditions, so both die. -/
theorem encounter_mutual_predation {species_t : Type} [DecidableEq species_t]
    (a b : Organism species_t)
    (hda : a.is_dead = false) (hdb : b.is_dead = false)
    (hpa : a.is_plant = false) (hpb : b.is_plant = false)
    (hab : a.can_eat b = true) (hba : b.can_eat a = true)
    (hs : a.are_species_equal b = false) :
    encounter a b =
      some ((if b.get_vitality ≥ a.get_vitality then a.kill
             else a.set_vitality ((a.get_vitality + b.get_vitality / 2) % VMOD)),
            (if a.get_vitality ≥ b.get_vitality then b.kill
             else b.set_vitality ((b.get_vitality + a.get_vitality / 2) % VMOD)),
            none) := by
  simp [encounter, hda, hdb, hpa, hpb, hab, hba, hs, Organism.add_vitality,
    Organism.get_vitality, Organism.set_vitality]

theorem encounter_mutual_predation_witness :
    (⟨true, false, (0 : Nat), 100⟩ : Organism Nat).is_dead = false ∧
    (⟨true, true, (1 : Nat), 40⟩ : Organism Nat).is_dead = false ∧
    (⟨true, false, (0 : Nat), 100⟩ : Organism Nat).is_plant = false ∧
    (⟨true, true, (1 : Nat), 40⟩ : Organism Nat).is_plant = false ∧
    (⟨true, false, (0 : Nat), 100⟩ : Organism Nat).can_eat
      ⟨true, true, 1, 40⟩ = true ∧
    (⟨true, true, (1 : Nat), 40⟩ : Organism Nat).can_eat
      ⟨true, false, 0, 100⟩ = true ∧
    (⟨true, false, (0 : Nat), 100⟩ : Organism Nat).are_species_equal
      ⟨true, true, 1, 40⟩ = false ∧
    encounter (⟨true, false, (0 : Nat), 100⟩ : Organism Nat) ⟨true, true, 1, 40⟩ =
      some ((if (⟨true, true, (1 : Nat), 40⟩ : Organism Nat).get_vitality ≥
               (⟨true, false, (0 : Nat), 100⟩ : Organism Nat).get_vitality then
               (⟨true, false, (0 : Nat), 100⟩ : Organism Nat).kill
             else (⟨true, false, (0 : Nat), 100⟩ : Organism Nat).set_vitality
               (((⟨true, false, (0 : Nat), 100⟩ : Organism Nat).get_vitality +
                 (⟨true, true, (1 : Nat), 40⟩ : Organism Nat).get_vitality / 2) % VMOD)),
            (if (⟨true, false, (0 : Nat), 100⟩ : Organism Nat).get_vitality ≥
               (⟨true, true, (1 : Nat), 40⟩ : Organism Nat).get_vitality then
               (⟨true, true, (1 : Nat), 40⟩ : Organism Nat).kill
             else (⟨true, true, (1 : Nat), 40⟩ : Organism Nat).set_vitality
               (((⟨true, true, (1 : Nat), 40⟩ : Organism Nat).get_vitality +
                 (⟨true, false, (0 : Nat), 100⟩ : Organism Nat).get_vitality / 2) % VMOD)),
            none) :=
  ⟨by decide, by decide, by decide, by decide, by decide, by decide, by decide,
    encounter_mutual_predation _ _ (by decide) (by decide) (by decide) (by decide)
      (by decide) (by decide) (by decide)⟩

/-- C5 counterexample: the predator's gain is added with `uint64_t`
arithmetic, which wraps.  A carnivore of vitality `2 ^ 64 - 1` eating a
weaker herbivore of vitality `2 ^ 64 - 2` ends with vitality `2 ^ 63 - 2`,
not the claimed `(2 ^ 64 - 1) + floor((2 ^ 64 - 2) / 2)`. -/
theorem encounter_one_directional_counterexample :
    (⟨true, false, (0 : Nat), 18446744073709551615⟩ : Organism Nat).is_dead = false ∧
    (⟨false, true, (1 : Nat), 18446744073709551614⟩ : Organism Nat).is_dead = false ∧
    (⟨true, false, (0 : Nat), 18446744073709551615⟩ : Organism Nat).can_eat
      ⟨false, true, 1, 18446744073709551614⟩ = true ∧
    (⟨false, true, (1 : Nat), 18446744073709551614⟩ : Organism Nat).can_eat
      ⟨true, false, 0, 18446744073709551615⟩ = false ∧
    (⟨true, false, (0 : Nat), 18446744073709551615⟩ : Organism Nat).are_species_equal
      ⟨false, true, 1, 18446744073709551614⟩ = false ∧
    encounter (⟨true, false, (0 : Nat), 18446744073709551615⟩ : Organism Nat)
      ⟨false, true, 1, 18446744073709551614⟩ =
      some (⟨true, false, 0, 9223372036854775806⟩, ⟨false, true, 1, 0⟩, none) ∧
    (9223372036854775806 : Nat) ≠
      18446744073709551615 + 18446744073709551614 / 2 := by
  decide

/-- C5 amended: for two living non-plant organisms of distinct species where
only `a` can eat `b`: if the prey's vitality is at least the predator's,
nothing happens; otherwise `b` is killed and `a`'s vitality becomes
`(a.vitality + b.vitality / 2) mod 2 ^ 64` (its old vitality plus half the
prey's, wrapped by `uint64_t`).  Both argument orders are covered. -/
theorem encounter_one_directional {species_t : Type} [DecidableEq species_t]
    (a b : Organism species_t)
    (hda : a.is_dead = false) (hdb : b.is_dead = false)
    (hpa : a.is_plant = false) (hpb : b.is_plant = false)
    (hab : a.can_eat b = true) (hba : b.can_eat a = false)
    (hs : a.are_species_equal b = false) :
    encounter a b =
      (if b.get_vitality ≥ a.get_vitality then some (a, b, none)
       else some (a.set_vitality ((a.get_vitality + b.get_vitality / 2) % VMOD),
         b.kill, none)) ∧
    encounter b a =
      (if b.get_vitality ≥ a.get_vitality then some (b, a, none)
       else some (b.kill,
         a.set_vitality ((a.get_vitality + b.get_vitality / 2) % VMOD), none)) := by
  have hs2 : b.are_species_equal a = false := by
    rw [← are_species_equal_comm]
    exact hs
  constructor <;>
    simp [encounter, hda, hdb, hpa, hpb, hab, hba, hs, hs2,
      Organism.add_vitality, Organism.get_vitality, Organism.set_vitality]

theorem encounter_one_directional_witness :
    (⟨true, false, (0 : Nat), 10⟩ : Organism Nat).is_dead = false ∧
    (⟨false, true, (1 : Nat), 10⟩ : Organism Nat).is_dead = false ∧
    (⟨true, false, (0 : Nat), 10⟩ : Organism Nat).is_plant = false ∧
    (⟨false, true, (1 : Nat), 10⟩ : Organism Nat).is_plant = false ∧
    (⟨true, false, (0 : Nat), 10⟩ : Organism Nat).can_eat
      ⟨false, true, 1, 10⟩ = true ∧
    (⟨false, true, (1 : Nat), 10⟩ : Organism Nat).can_eat
      ⟨true, false, 0, 10⟩ = false ∧
    (⟨true, false, (0 : Nat), 10⟩ : Organism Nat).are_species_equal
      ⟨false, true, 1, 10⟩ = false ∧
    (encounter (⟨true, false, (0 : Nat), 10⟩ : Organism Nat) ⟨false, true, 1, 10⟩ =
      (if (⟨false, true, (1 : Nat), 10⟩ : Organism Nat).get_vitality ≥
          (⟨true, false, (0 : Nat), 10⟩ : Organism Nat).get_vitality then
        some (⟨true, false, 0, 10⟩, ⟨false, true, 1, 10⟩, none)
       else some ((⟨true, false, (0 : Nat), 10⟩ : Organism Nat).set_vitality
         (((⟨true, false, (0 : Nat), 10⟩ : Organism Nat).get_vitality +
           (⟨false, true, (1 : Nat), 10⟩ : Organism Nat).get_vitality / 2) % VMOD),
         (⟨false, true, (1 : Nat), 10⟩ : Organism Nat).kill, none)) ∧
     encounter (⟨false, true, (1 : Nat), 10⟩ : Organism Nat) ⟨true, false, 0, 10⟩ =
      (if (⟨false, true, (1 : Nat), 10⟩ : Organism Nat).get_vitality ≥
          (⟨true, false, (0 : Nat), 10⟩ : Organism Nat).get_vitality then
        some (⟨false, true, 1, 10⟩, ⟨true, false, 0, 10⟩, none)
       else some ((⟨false, true, (1 : Nat), 10⟩ : Organism Nat).kill,
         (⟨true, false, (0 : Nat), 10⟩ : Organism Nat).set_vitality
           (((⟨true, false, (0 : Nat), 10⟩ : Organism Nat).get_vitality +
             (⟨false, true, (1 : Nat), 10⟩ : Organism Nat).get_vitality / 2) % VMOD),
         none))) :=
  ⟨by decide, by decide, by decide, by decide, by decide, by decide, by decide,
    encounter_one_directional _ _ (by decide) (by decide) (by decide) (by decide)
      (by decide) (by decide) (by decide)⟩

/-- C1: swapping the arguments of `encounter` swaps the first two output
positions and keeps the same offspring, in every rule branch. -/
theorem encounter_swap {species_t : Type} [DecidableEq species_t]
    (a b : Organism species_t)
    (h : ¬(a.is_plant = true ∧ b.is_plant = true)) :
    encounter b a = (encounter a b).map (fun r => (r.2.1, r.1, r.2.2)) := by
  rcases a with ⟨am, ap, as, av⟩
  rcases b with ⟨bm, bp, bs, bv⟩
  by_cases hs : as = bs <;>
    cases am <;> cases ap <;> cases bm <;> cases bp <;>
      by_cases hav : av = 0 <;> by_cases hbv : bv = 0 <;>
        simp_all [encounter, Organism.is_dead, Organism.is_plant, Organism.can_eat,
          Organism.are_species_equal, Organism.get_species, Organism.get_vitality,
          Organism.add_vitality, Organism.set_vitality, Organism.kill, Nat.add_comm,
          ne_comm, apply_ite]

theorem encounter_swap_witness :
    ¬((⟨true, false, (0 : Nat), 5⟩ : Organism Nat).is_plant = true ∧
      (⟨false, true, (1 : Nat), 3⟩ : Organism Nat).is_plant = true) ∧
    encounter (⟨false, true, (1 : Nat), 3⟩ : Organism Nat) ⟨true, false, 0, 5⟩ =
      (encounter (⟨true, false, (0 : Nat), 5⟩ : Organism Nat)
        ⟨false, true, 1, 3⟩).map (fun r => (r.2.1, r.1, r.2.2)) :=
  ⟨by decide, encounter_swap _ _ (by decide)⟩

section Scratch

example :
    encounter (⟨true, false, (0 : Nat), 5⟩ : Organism Nat) ⟨true, false, 0, 5⟩ =
      some (⟨true, false, 0, 5⟩, ⟨true, false, 0, 5⟩, some ⟨true, false, 0, 5⟩) := by
  decide

example :
    encounter (⟨false, true, (0 : Nat), 30⟩ : Organism Nat) ⟨false, false, 1, 50⟩ =
      some (⟨false, true, 0, 80⟩, ⟨false, false, 1, 0⟩, none) := by
  decide

example :
    encounter (⟨true, false, (0 : Nat), 100⟩ : Organism Nat) ⟨true, true, 1, 40⟩ =
      some (⟨true, false, 0, 120⟩, ⟨true, true, 1, 0⟩, none) := by
  decide

example :
    encounter (⟨true, false, (0 : Nat), 10⟩ : Organism Nat) ⟨false, true, 1, 10⟩ =
      some (⟨true, false, 0, 10⟩, ⟨false, true, 1, 10⟩, none) := by
  decide

example :
    encounter_series (⟨true, false, (0 : Nat), 10⟩ : Organism Nat)
      [⟨false, true, 1, 4⟩, ⟨false, true, 1, 20⟩] =
      some ⟨true, false, 0, 12⟩ := by
  decide

end Scratch
